import Mathlib

/-!
Verification of the qiskit-ibm-runtime client core against its source:
the `RuntimeSession` write/read/info/close protocol
(`qiskit_ibm_runtime/runtime_session.py`), the pydantic-based
`EstimatorOptions` validation (`qiskit_ibm_runtime/options/estimator_options.py`),
and the fake runtime client used by the tests
(`test/ibm/runtime/fake_runtime_client.py`).

Python dictionaries whose values we treat as opaque strings are embedded as
association lists `List (String × α)`; `dict.update` is embedded by `updateMap`.
Fallible Python calls are embedded as `Except PyError`.
-/

namespace QiskitRT

/-- Errors raised by the embedded Python code. -/
inductive PyError where
  /-- `RuntimeError("The session is closed.")` from the `_active_session` guard. -/
  | sessionClosed
  /-- Python `AttributeError` (attribute access on an object lacking it). -/
  | attributeError
  /-- An invalid-option error: pydantic `ValidationError` wrapping the
  `ValueError` raised by a field or model validator. -/
  | invalidOption
  /-- `RequestsApiError` with the given HTTP status code. -/
  | apiError (code : Nat)
  deriving DecidableEq, Repr

/-- First binding of key `k` in an association list (Python `d[k]` / `d.get(k)`). -/
def lookupKey {α : Type} : List (String × α) → String → Option α
  | [], _ => none
  | kv :: rest, k => if kv.1 = k then some kv.2 else lookupKey rest k

/-- Set key `k` to `v`: replace the first binding of `k`, or append if absent
(Python `d[k] = v`, restricted to observational `lookupKey` behavior). -/
def setKey {α : Type} : List (String × α) → String → α → List (String × α)
  | [], k, v => [(k, v)]
  | kv :: rest, k, v =>
      if kv.1 = k then (k, v) :: rest else kv :: setKey rest k v

/-- Python `base.update(kw)`: write every binding of `kw` into `base`, in order. -/
def updateMap {α : Type} (base kw : List (String × α)) : List (String × α) :=
  kw.foldl (fun acc kv => setKey acc kv.1 kv.2) base

/-- Left-biased overlay on optional values: the first operand wins when present. -/
def pyOverlay {α : Type} (a b : Option α) : Option α :=
  match a with
  | some v => some v
  | none => b

/-- Python `copy.copy` of a dict whose values are immutable: the same bindings. -/
def copyDict {α : Type} (d : List (String × α)) : List (String × α) := d

/-- Python `x or default` on an optional string: `None` and `""` are falsy. -/
def pyOrStr (x : Option String) (d : String) : String :=
  match x with
  | none => d
  | some s => if s = "" then d else s

/-- Python `x or default` on an optional integer: `None` and `0` are falsy. -/
def pyOrNat (x : Option Nat) (d : Nat) : Nat :=
  match x with
  | none => d
  | some n => if n = 0 then d else n

theorem lookupKey_setKey {α : Type} (m : List (String × α)) (k k' : String) (v : α) :
    lookupKey (setKey m k v) k' = if k = k' then some v else lookupKey m k' := by
  induction m with
  | nil =>
      by_cases h : k = k' <;> simp [setKey, lookupKey, h]
  | cons kv rest ih =>
      by_cases hk : kv.1 = k
      · rw [setKey, if_pos hk]
        by_cases h : k = k'
        · simp [lookupKey, h]
        · have h2 : ¬ kv.1 = k' := by rw [hk]; exact h
          simp [lookupKey, h, h2]
      · rw [setKey, if_neg hk]
        by_cases h : kv.1 = k'
        · have h2 : ¬ k = k' := fun he => hk (by rw [he, ← h])
          simp [lookupKey, h, h2]
        · simp [lookupKey, h, ih]

theorem lookupKey_eq_none_of_not_mem {α : Type} (m : List (String × α)) (k : String)
    (h : k ∉ m.map Prod.fst) : lookupKey m k = none := by
  induction m with
  | nil => rfl
  | cons kv rest ih =>
      simp only [List.map_cons, List.mem_cons] at h
      push_neg at h
      have hk : ¬ kv.1 = k := fun he => h.1 he.symm
      simp [lookupKey, hk, ih h.2]

theorem updateMap_cons {α : Type} (base : List (String × α)) (kv : String × α)
    (kw : List (String × α)) :
    updateMap base (kv :: kw) = updateMap (setKey base kv.1 kv.2) kw := rfl

theorem lookupKey_updateMap_of_not_mem {α : Type} (base kw : List (String × α)) (k : String)
    (h : k ∉ kw.map Prod.fst) : lookupKey (updateMap base kw) k = lookupKey base k := by
  induction kw generalizing base with
  | nil => rfl
  | cons kv rest ih =>
      simp only [List.map_cons, List.mem_cons] at h
      push_neg at h
      rw [updateMap_cons, ih _ h.2, lookupKey_setKey, if_neg (fun he => h.1 he.symm)]

/-- Overlay semantics of `dict.update`: for keyword maps with distinct keys,
a key is looked up in the overrides first, then in the base dict. -/
theorem lookupKey_updateMap {α : Type} (base kw : List (String × α)) (k : String)
    (hnd : (kw.map Prod.fst).Nodup) :
    lookupKey (updateMap base kw) k = pyOverlay (lookupKey kw k) (lookupKey base k) := by
  induction kw generalizing base with
  | nil => simp [updateMap, lookupKey, pyOverlay]
  | cons kv rest ih =>
      simp only [List.map_cons, List.nodup_cons] at hnd
      rw [updateMap_cons]
      by_cases hk : kv.1 = k
      · have hnotin : k ∉ rest.map Prod.fst := hk ▸ hnd.1
        rw [lookupKey_updateMap_of_not_mem _ _ _ hnotin, lookupKey_setKey, if_pos hk]
        simp [lookupKey, hk, pyOverlay]
      · rw [ih _ hnd.2, lookupKey_setKey, if_neg hk]
        have hcons : lookupKey (kv :: rest) k = lookupKey rest k := by
          simp [lookupKey, hk]
        rw [hcons]

/-! ### RuntimeSession (`qiskit_ibm_runtime/runtime_session.py`)

The session holds `_program_id`, `_options`, `_initial_inputs`, `_job`,
`_session_id` and `_active`.  `write` and `read` are wrapped by the
`_active_session` decorator, which raises `RuntimeError("The session is
closed.")` before the body runs when `_active` is false.  The service call
`self._service.run(...)` and the `RuntimeJob` class are outside `src/`, so the
job the service returns is modelled from the spec (see `service_run`).
-/

/-- The value of a session's `_options` attribute: the constructor accepts
`None`, a plain `dict`, or a `RuntimeOptions` object (the latter the only one
with a `backend_name` attribute; on it `backend_name` may still be `None`). -/
inductive SessionOptions where
  | pyNone
  | dict (entries : List (String × String))
  | runtime (backend_name : Option String)
  deriving DecidableEq, Repr

/-- The job handle returned by `service.run`: its id, what was submitted, the
`session_id` argument the session passed, and the session id the backend
associated with the job. -/
structure SubmittedJob where
  job_id : String
  program_id : String
  inputs : List (String × String)
  sent_session_id : Option String
  session_id : String
  deriving DecidableEq, Repr

/-- Job ids produced by the modelled service, distinct for distinct counters. -/
def jobName (n : Nat) : String := "job-" ++ toString n

/-- Modelled from the spec: the backend submission `service.run(program_id,
options, inputs, session_id)` (`IBMRuntimeService.run` and `RuntimeJob` are not
under `src/`).  Per §4.2, it creates a job; "if `session_id` is omitted, the
backend assigns a new one and the first job's id becomes the session id for
subsequent calls", so the job's session id is the passed `session_id` when
present and the new job's own id otherwise.  `fresh` feeds the new job id. -/
def service_run (fresh : Nat) (program_id : String) (inputs : List (String × String))
    (session_id : Option String) : SubmittedJob :=
  let jid := jobName fresh
  { job_id := jid
    program_id := program_id
    inputs := inputs
    sent_session_id := session_id
    session_id := match session_id with
                  | some sid => sid
                  | none => jid }

/-- State of a `RuntimeSession` object. -/
structure RuntimeSession where
  program_id : String
  options : SessionOptions
  initial_inputs : List (String × String)
  job : Option SubmittedJob
  session_id : Option String
  active : Bool
  deriving DecidableEq, Repr

/-- `RuntimeSession.__init__`: stores the arguments, no job, no session id,
active. -/
def RuntimeSession.mk_session (program_id : String) (options : SessionOptions)
    (inputs : List (String × String)) : RuntimeSession :=
  { program_id := program_id
    options := options
    initial_inputs := inputs
    job := none
    session_id := none
    active := true }

/-- `RuntimeSession.write(**kwargs)`: guarded by `_active_session`; copies the
initial inputs, overlays the call's keyword arguments, submits via
`service.run` with the session's current `_session_id`, stores the job, and
records the job's id as `_session_id` if none was set yet.  Returns the
submitted job together with the updated session state. -/
def RuntimeSession.write (s : RuntimeSession) (fresh : Nat)
    (kwargs : List (String × String)) :
    Except PyError (SubmittedJob × RuntimeSession) :=
  if s.active = false then .error .sessionClosed
  else
    let inputs := updateMap (copyDict s.initial_inputs) kwargs
    let job := service_run fresh s.program_id inputs s.session_id
    let s1 := { s with job := some job }
    let s2 := match s1.session_id with
              | none => { s1 with session_id := some job.job_id }
              | some _ => s1
    .ok (job, s2)

/-- `RuntimeSession.read(...)`: guarded by `_active_session`; then calls
`self._job.result(...)`.  `RuntimeJob.result` is outside `src/`, so `read`
surfaces the job whose `result` is called; `self._job` being `None` is a
Python `AttributeError`. -/
def RuntimeSession.read (s : RuntimeSession) : Except PyError SubmittedJob :=
  if s.active = false then .error .sessionClosed
  else
    match s.job with
    | some j => .ok j
    | none => .error .attributeError

/-- The dict returned by `RuntimeSession.info`. -/
structure SessionInfo where
  backend : String
  job_id : Option String
  job_status : Option String
  deriving DecidableEq, Repr

/-- `RuntimeSession.info()`: builds `{"backend": self._options.backend_name or
"unknown"}` — an `AttributeError` when `_options` is `None` or a plain dict,
neither of which has a `backend_name` attribute — then adds the job id and the
job's remote status (`statusOf`, a read of `RuntimeJob.status()`, which is
outside `src/`) when a job is stored.  No field of the session is assigned, so
the returned session state is the input one. -/
def RuntimeSession.info (s : RuntimeSession) (statusOf : String → String) :
    Except PyError (SessionInfo × RuntimeSession) :=
  match s.options with
  | .runtime bn =>
      .ok ({ backend := pyOrStr bn "unknown"
             job_id := s.job.map (fun j => j.job_id)
             job_status := s.job.map (fun j => statusOf j.job_id) }, s)
  | .pyNone => .error .attributeError
  | .dict _ => .error .attributeError

/-- `RuntimeSession.close()`: sets `_active = False`. -/
def RuntimeSession.close (s : RuntimeSession) : RuntimeSession :=
  { s with active := false }

/-- `RuntimeSession.__exit__`: sets `_active = False` (same effect as `close`),
regardless of how the scope was left. -/
def RuntimeSession.exit_scope (s : RuntimeSession) : RuntimeSession :=
  { s with active := false }

/-- A sequence of `write` calls: run each keyword dict in order, threading the
session state and the fresh-id counter, collecting the submitted jobs. -/
def writeSeq (s : RuntimeSession) (fresh : Nat) :
    List (List (String × String)) →
    Except PyError (List SubmittedJob × RuntimeSession)
  | [] => .ok ([], s)
  | kw :: rest =>
      match s.write fresh kw with
      | .error e => .error e
      | .ok (j, s1) =>
          match writeSeq s1 (fresh + 1) rest with
          | .error e => .error e
          | .ok (js, s2) => .ok (j :: js, s2)

theorem write_ok_of_active (s : RuntimeSession) (fresh : Nat)
    (kw : List (String × String)) (hact : s.active = true) :
    s.write fresh kw =
      .ok (service_run fresh s.program_id (updateMap s.initial_inputs kw) s.session_id,
           match s.session_id with
           | none =>
               { s with job := some (service_run fresh s.program_id
                                       (updateMap s.initial_inputs kw) s.session_id),
                        session_id := some (jobName fresh) }
           | some _ =>
               { s with job := some (service_run fresh s.program_id
                                       (updateMap s.initial_inputs kw) s.session_id) }) := by
  rw [RuntimeSession.write, if_neg (by simp [hact])]
  cases hsid : s.session_id with
  | none => simp [service_run, copyDict, hsid]
  | some sid => simp [service_run, copyDict, hsid]

theorem write_fields (s : RuntimeSession) (fresh : Nat) (kw : List (String × String))
    (j : SubmittedJob) (s1 : RuntimeSession)
    (h : s.write fresh kw = .ok (j, s1)) :
    s.active = true ∧
    j.sent_session_id = s.session_id ∧
    j.job_id = jobName fresh ∧
    j.session_id = (match s.session_id with
                    | some sid => sid
                    | none => j.job_id) ∧
    s1.session_id = (match s.session_id with
                     | some sid => some sid
                     | none => some j.job_id) ∧
    s1.active = s.active ∧
    s1.initial_inputs = s.initial_inputs ∧
    s1.job = some j ∧
    j.inputs = updateMap s.initial_inputs kw := by
  by_cases hact : s.active = true
  · rw [write_ok_of_active s fresh kw hact] at h
    cases hsid : s.session_id with
    | none =>
        rw [hsid] at h
        injection h with h
        injection h with hj hs
        subst hj; subst hs
        simp [service_run, hsid, hact]
    | some sid =>
        rw [hsid] at h
        injection h with h
        injection h with hj hs
        subst hj; subst hs
        simp [service_run, hsid, hact]
  · have : s.active = false := by
      cases hactv : s.active
      · rfl
      · exact absurd hactv hact
    rw [RuntimeSession.write, if_pos this] at h
    exact absurd h (by simp)

/-- Once a session id is present, a whole sequence of writes keeps it and every
produced job carries it, both as the value sent and as the assigned id. -/
theorem writeSeq_keeps_session_id (kws : List (List (String × String)))
    (s : RuntimeSession) (fresh : Nat) (sid : String)
    (jobs : List SubmittedJob) (s2 : RuntimeSession)
    (hsid : s.session_id = some sid)
    (h : writeSeq s fresh kws = .ok (jobs, s2)) :
    s2.session_id = some sid ∧
    ∀ j ∈ jobs, j.session_id = sid ∧ j.sent_session_id = some sid := by
  induction kws generalizing s fresh jobs with
  | nil =>
      rw [writeSeq] at h
      injection h with h
      injection h with hj hs
      subst hj; subst hs
      exact ⟨hsid, by simp⟩
  | cons kw rest ih =>
      rw [writeSeq] at h
      cases hw : s.write fresh kw with
      | error e => rw [hw] at h; exact absurd h (by simp)
      | ok p =>
          obtain ⟨j, s1⟩ := p
          rw [hw] at h
          dsimp only at h
          cases hrest : writeSeq s1 (fresh + 1) rest with
          | error e => rw [hrest] at h; exact absurd h (by simp)
          | ok q =>
              obtain ⟨js, send⟩ := q
              rw [hrest] at h
              dsimp only at h
              injection h with h
              injection h with hj hs
              subst hj; subst hs
              obtain ⟨-, hsent, -, hjsid, hs1sid, -, -, -, -⟩ := write_fields s fresh kw j s1 hw
              rw [hsid] at hsent hjsid hs1sid
              obtain ⟨hend, hall⟩ := ih s1 (fresh + 1) js hs1sid hrest
              refine ⟨hend, ?_⟩
              intro x hx
              rcases List.mem_cons.mp hx with hx | hx
              · subst hx; exact ⟨hjsid, hsent⟩
              · exact hall x hx

/-! ### EstimatorOptions (`qiskit_ibm_runtime/options/estimator_options.py`)

A pydantic dataclass with `validate_assignment=True`.  The `Unset` sentinel,
the `skip_unset_validation` decorator, the `simulator` option group, and the
pydantic assignment machinery live outside `src/` and are modelled from the
spec where noted.  The two field validators and the after-model validator
`_validate_options` are embedded from the source.
-/

/-- The `Unset` sentinel pattern: a field is either unset or holds a value. -/
inductive ConfigValue (α : Type) where
  | unset
  | val (a : α)
  deriving DecidableEq, Repr

/-- `isinstance(x, UnsetType)`. -/
def ConfigValue.isUnset {α : Type} : ConfigValue α → Bool
  | .unset => true
  | .val _ => false

/-- A coupling map value; its internal shape is irrelevant to validation. -/
abbrev CouplingMap : Type := List (Nat × Nat)

/-- Modelled from the spec: the `simulator` option group referenced by
`_validate_options` (`OptionsV2`/`SimulatorOptions` are outside `src/`); only
its `coupling_map` leaf, `Unset` by default, is consulted. -/
structure SimulatorOptions where
  coupling_map : ConfigValue CouplingMap
  deriving DecidableEq

def _MAX_OPTIMIZATION_LEVEL : Int := 3

def _MAX_RESILIENCE_LEVEL : Int := 3

/-- Modelled from the spec: the `skip_unset_validation` decorator
(`options/utils.py`, outside `src/`): "a validator never runs against Unset —
validation is skipped entirely for unset fields, applied only when a concrete
value is present". -/
def skip_unset_validation (f : Int → Except PyError Int) :
    ConfigValue Int → Except PyError (ConfigValue Int)
  | .unset => .ok .unset
  | .val v =>
      match f v with
      | .error e => .error e
      | .ok v1 => .ok (.val v1)

/-- Body of `_validate_optimization_level`: `if not 0 <= optimization_level <= 3:
raise ValueError(...)`. -/
def optimization_level_body (v : Int) : Except PyError Int :=
  if 0 ≤ v ∧ v ≤ _MAX_OPTIMIZATION_LEVEL then .ok v else .error .invalidOption

/-- Body of `_validate_resilience_level`: `if not 0 <= resilience_level <=
EstimatorOptions._MAX_RESILIENCE_LEVEL: raise ValueError(...)`. -/
def resilience_level_body (v : Int) : Except PyError Int :=
  if 0 ≤ v ∧ v ≤ _MAX_RESILIENCE_LEVEL then .ok v else .error .invalidOption

/-- The `optimization_level` field validator, `@skip_unset_validation`. -/
def _validate_optimization_level : ConfigValue Int → Except PyError (ConfigValue Int) :=
  skip_unset_validation optimization_level_body

/-- The `resilience_level` field validator, `@skip_unset_validation`. -/
def _validate_resilience_level : ConfigValue Int → Except PyError (ConfigValue Int) :=
  skip_unset_validation resilience_level_body

/-- The fields of `EstimatorOptions` that the verified validators consult.
`transpilation`, `resilience`, `execution`, `twirling`, `dynamical_decoupling`
and `experimental` are never read by any validator and are omitted. -/
structure EstimatorOptions where
  _is_simulator : Bool
  optimization_level : ConfigValue Int
  resilience_level : ConfigValue Int
  simulator : SimulatorOptions
  deriving DecidableEq

/-- The after-model validator `_validate_options`: raises when
`resilience_level == 3`, the backend is simulator-flagged, and
`simulator.coupling_map` is `Unset`. -/
def _validate_options (o : EstimatorOptions) : Except PyError EstimatorOptions :=
  if o.resilience_level = ConfigValue.val 3 ∧ o._is_simulator = true ∧
      o.simulator.coupling_map.isUnset = true
  then .error .invalidOption
  else .ok o

/-- A single-field assignment target on an `EstimatorOptions` object. -/
inductive EstimatorField where
  | optimizationLevel (v : ConfigValue Int)
  | resilienceLevel (v : ConfigValue Int)
  | isSimulator (b : Bool)
  | couplingMap (v : ConfigValue CouplingMap)

/-- Modelled from the spec: pydantic assignment semantics declared by
`ConfigDict(validate_assignment=True)` (the pydantic machinery is outside
`src/`).  Assigning a field runs that field's validator, then re-runs the
after-model validator `_validate_options` on the updated object; on failure
the error propagates and the object is left unchanged.  Per the spec,
"Cross-field validation re-runs whenever any field referenced by a rule
changes (not just on leaf update)". -/
def EstimatorOptions.assign (o : EstimatorOptions) :
    EstimatorField → Except PyError EstimatorOptions
  | .optimizationLevel v =>
      match _validate_optimization_level v with
      | .error e => .error e
      | .ok v1 => _validate_options { o with optimization_level := v1 }
  | .resilienceLevel v =>
      match _validate_resilience_level v with
      | .error e => .error e
      | .ok v1 => _validate_options { o with resilience_level := v1 }
  | .isSimulator b => _validate_options { o with _is_simulator := b }
  | .couplingMap v => _validate_options { o with simulator := { coupling_map := v } }

/-- Construction of an `EstimatorOptions`: pydantic runs the field validators
on the given values and then the after-model validator (`_is_simulator`
defaults to `False` but is exposed here so simulator-flagged objects can be
built as the primitives do). -/
def EstimatorOptions.construct (opt res : ConfigValue Int) (sim : Bool)
    (cm : ConfigValue CouplingMap) : Except PyError EstimatorOptions :=
  match _validate_optimization_level opt with
  | .error e => .error e
  | .ok o1 =>
      match _validate_resilience_level res with
      | .error e => .error e
      | .ok r1 =>
          _validate_options
            { _is_simulator := sim
              optimization_level := o1
              resilience_level := r1
              simulator := { coupling_map := cm } }

/-! ### Fake runtime client (`test/ibm/runtime/fake_runtime_client.py`) -/

/-- The job status strings of the fake client: `"QUEUED"`, `"RUNNING"`,
`"COMPLETED"`, `"FAILED"`, `"CANCELLED"`, `"CANCELLED - RAN TOO LONG"`. -/
inductive FakeStatus where
  | queued
  | running
  | completed
  | failed
  | cancelled
  | cancelledRanTooLong
  deriving DecidableEq, Repr

/-- The job classes of the fake client.  `base` is `BaseFakeRuntimeJob`, the
default when the pending-class queue is empty. -/
inductive JobClass where
  | base
  | failedJob
  | failedRanTooLong
  | cancelable
  | customResult
  | timed
  deriving DecidableEq, Repr

/-- `json.dumps("foo")`, the payload stored on normal completion. -/
def fooResult : String := "\"foo\""

/-- State of a fake runtime job object. -/
structure FakeJob where
  job_id : String
  program_id : String
  hub : String
  group : String
  project : String
  backend_name : String
  params : String
  image : String
  cls : JobClass
  /-- The `_status` attribute (raw; `to_dict` may report differently). -/
  status : FakeStatus
  /-- The `_result` attribute; `none` also stands for the attribute being
  absent (a preset non-`COMPLETED` final status never sets it). -/
  result : Option String
  /-- `CancelableRuntimeJob._cancelled`; unused by other classes. -/
  cancelled : Bool
  /-- Whether `_future` exists: `__init__` only creates it when
  `final_status` is `None`. -/
  has_future : Bool
  final_status : Option FakeStatus
  deriving DecidableEq, Repr

/-- `BaseFakeRuntimeJob.__init__` (and subclasses): `_status = final_status or
"QUEUED"`; the auto-progress future is submitted only when `final_status` is
`None`; `_result` is set to the `"foo"` payload when `final_status ==
"COMPLETED"` and is left unset for any other preset final status. -/
def mkFakeJob (job_id program_id hub group project backend_name params image : String)
    (cls : JobClass) (final_status : Option FakeStatus) : FakeJob :=
  { job_id := job_id
    program_id := program_id
    hub := hub
    group := group
    project := project
    backend_name := backend_name
    params := params
    image := image
    cls := cls
    status := match final_status with
              | none => .queued
              | some st => st
    result := match final_status with
              | some .completed => some fooResult
              | _ => none
    cancelled := false
    has_future := final_status.isNone
    final_status := final_status }

/-- What a status/`to_dict` read reports for the job: `CancelableRuntimeJob`
overrides `to_dict` to report `"CANCELLED"` once `_cancelled` is set; every
other class reports the raw `_status`. -/
def FakeJob.reportedStatus (j : FakeJob) : FakeStatus :=
  if j.cls = JobClass.cancelable ∧ j.cancelled = true then .cancelled else j.status

/-- The dictionary produced by `to_dict`. -/
structure JobDict where
  id : String
  hub : String
  group : String
  project : String
  backend : String
  status : FakeStatus
  params : String
  program_id : String
  image : String
  deriving DecidableEq, Repr

/-- `BaseFakeRuntimeJob.to_dict`, with `CancelableRuntimeJob`'s status
override. -/
def FakeJob.to_dict (j : FakeJob) : JobDict :=
  { id := j.job_id
    hub := j.hub
    group := j.group
    project := j.project
    backend := j.backend_name
    status := j.reportedStatus
    params := j.params
    program_id := j.program_id
    image := j.image }

/-- The `cancel` call on a job object.  Only `CancelableRuntimeJob` defines
`cancel`; on any other class the attribute lookup raises `AttributeError`.
`CancelableRuntimeJob.cancel` first calls `self._future.cancel()` — an
`AttributeError` when the job was created with a preset final status, since
`__init__` then never created `_future` — and then sets `_cancelled = True`. -/
def FakeJob.cancel (j : FakeJob) : Except PyError FakeJob :=
  match j.cls with
  | .cancelable =>
      if j.has_future = true then .ok { j with cancelled := true }
      else .error .attributeError
  | _ => .error .attributeError

/-- State of `BaseFakeRuntimeClient`: the job registry, keyed by job id in
insertion order (the program registry is not involved in any claim). -/
structure FakeClient where
  jobs : List (String × FakeJob)
  deriving DecidableEq, Repr

/-- `jobs_get`'s pending filter list: `['QUEUED', 'RUNNING']`. -/
def pending_statuses : List FakeStatus := [.queued, .running]

/-- `jobs_get`'s non-pending filter list: `['COMPLETED', 'FAILED',
'CANCELLED']` (note: the source list does not contain
`'CANCELLED - RAN TOO LONG'`). -/
def returned_statuses : List FakeStatus := [.completed, .failed, .cancelled]

/-- Membership of a status in a filter list. -/
def statusMem (s : FakeStatus) : List FakeStatus → Bool
  | [] => false
  | t :: ts => if s = t then true else statusMem s ts

/-- Python `all([hub, group, project])`: every element non-`None` and
non-empty. -/
def truthyStr : Option String → Bool
  | none => false
  | some s => !(s = "")

/-- The page returned by `jobs_get`. -/
structure JobsPage where
  jobs : List JobDict
  count : Nat
  deriving DecidableEq, Repr

/-- `BaseFakeRuntimeClient.jobs_get(limit, skip, pending, program_id, hub,
group, project)`: `limit = limit or len(self._jobs)`, `skip = skip or 0`;
filter on the raw `_status` against the pending or the returned status list;
then on `_program_id`; then on the ownership triple when all three are
truthy; finally slice `jobs[skip:limit+skip]` and emit `to_dict`s with the
last recomputed count. -/
def FakeClient.jobs_get (c : FakeClient) (limit skip : Option Nat)
    (pending : Option Bool) (program_id : Option String)
    (hub group project : Option String) : JobsPage :=
  let lim := pyOrNat limit c.jobs.length
  let sk := pyOrNat skip 0
  let js0 := c.jobs.map Prod.snd
  let count0 := c.jobs.length
  let step1 : List FakeJob × Nat :=
    match pending with
    | none => (js0, count0)
    | some p =>
        let sl := if p then pending_statuses else returned_statuses
        let f := js0.filter (fun j => statusMem j.status sl)
        (f, f.length)
  let step2 : List FakeJob × Nat :=
    match program_id with
    | none => step1
    | some pid =>
        if pid = "" then step1
        else
          let f := step1.1.filter (fun j => decide (j.program_id = pid))
          (f, f.length)
  let step3 : List FakeJob × Nat :=
    if truthyStr hub = true ∧ truthyStr group = true ∧ truthyStr project = true then
      let f := step2.1.filter (fun j =>
        decide (some j.hub = hub ∧ some j.group = group ∧ some j.project = project))
      (f, f.length)
    else step2
  { jobs := ((step3.1.drop sk).take lim).map FakeJob.to_dict
    count := step3.2 }

/-- `BaseFakeRuntimeClient._get_job`: 404 for an unknown job id. -/
def FakeClient.get_job (c : FakeClient) (job_id : String) : Except PyError FakeJob :=
  match lookupKey c.jobs job_id with
  | none => .error (.apiError 404)
  | some j => .ok j

/-- `BaseFakeRuntimeClient.job_get`: `_get_job(job_id).to_dict()`. -/
def FakeClient.job_get (c : FakeClient) (job_id : String) : Except PyError JobDict :=
  match c.get_job job_id with
  | .error e => .error e
  | .ok j => .ok j.to_dict

/-- `BaseFakeRuntimeClient.job_cancel`: `_get_job(job_id).cancel()`, the
mutated job replacing the stored one. -/
def FakeClient.job_cancel (c : FakeClient) (job_id : String) :
    Except PyError FakeClient :=
  match c.get_job job_id with
  | .error e => .error e
  | .ok j =>
      match j.cancel with
      | .error e => .error e
      | .ok j1 => .ok { c with jobs := setKey c.jobs job_id j1 }

/-! ### The default-profile job's observable progression (claim C4)

`BaseFakeRuntimeJob` with `final_status=None`: `__init__` leaves the job at
`("QUEUED", no result)` and submits `_auto_progress` on an executor.
`_auto_progress` performs, in order, one `self._status = st` assignment per
entry of `_job_progress = ["QUEUED", "RUNNING", "COMPLETED"]` (each after a
sleep), and then, as a separate statement, `self._result = json.dumps("foo")`
when the final status is `"COMPLETED"`.  The trace lists the observable
`(status, result)` pair after each of these atomic assignments, starting from
the initial state. -/

/-- An observable snapshot of a fake job: `(_status, _result)`. -/
structure JobObs where
  status : FakeStatus
  result : Option String
  deriving DecidableEq, Repr

/-- The state right after `__init__` with `final_status=None`. -/
def initialObs : JobObs := { status := .queued, result := none }

/-- `BaseFakeRuntimeJob._job_progress`. -/
def default_job_progress : List FakeStatus := [.queued, .running, .completed]

/-- The states after each `self._status = status` assignment of the loop. -/
def statusStates (o : JobObs) : List FakeStatus → List JobObs
  | [] => []
  | st :: rest =>
      let o1 := { o with status := st }
      o1 :: statusStates o1 rest

/-- The final statement of `BaseFakeRuntimeJob._auto_progress`:
`if self._status == "COMPLETED": self._result = json.dumps("foo")`. -/
def finalizeResult (o : JobObs) : JobObs :=
  if o.status = FakeStatus.completed then { o with result := some fooResult } else o

/-- The full observable trace of a default-profile job: the initial state,
the state after each status assignment, and the state after the result
assignment. -/
def defaultTrace : List JobObs :=
  let mids := statusStates initialObs default_job_progress
  initialObs :: (mids ++ [finalizeResult (mids.getLastD initialObs)])

/-- Rank of a status along the default progression path. -/
def statusRank : FakeStatus → Nat
  | .queued => 0
  | .running => 1
  | .completed => 2
  | .failed => 3
  | .cancelled => 3
  | .cancelledRanTooLong => 3

/-! ### Concrete demonstration values used by witnesses -/

/-- A freshly constructed session: no job, no session id, active. -/
def demoSession : RuntimeSession :=
  RuntimeSession.mk_session "prog" SessionOptions.pyNone [("a", "1")]

/-- The job produced by the first demo write (`kwargs = {"b": "2"}`). -/
def demoJob0 : SubmittedJob :=
  { job_id := "job-0"
    program_id := "prog"
    inputs := [("a", "1"), ("b", "2")]
    sent_session_id := none
    session_id := "job-0" }

/-- The job produced by the second demo write (no overrides). -/
def demoJob1 : SubmittedJob :=
  { job_id := "job-1"
    program_id := "prog"
    inputs := [("a", "1")]
    sent_session_id := some "job-0"
    session_id := "job-0" }

/-- The demo session after its first write. -/
def demoAfterOne : RuntimeSession :=
  { demoSession with job := some demoJob0, session_id := some "job-0" }

/-- The demo session after its second write. -/
def demoAfterTwo : RuntimeSession :=
  { demoSession with job := some demoJob1, session_id := some "job-0" }

/-! ### Claim theorems -/

/-- C1: for every sequence of `write` calls on one `RuntimeSession` starting
with no session id, every submitted job is sent with the session's current
session id (`none` on the first call), after the first write the session id
equals the first job's job id and never changes, and all jobs produced by the
sequence share that session id. -/
theorem c1_session_id_shared (s : RuntimeSession) (fresh : Nat)
    (kw : List (String × String)) (kws : List (List (String × String)))
    (jobs : List SubmittedJob) (s2 : RuntimeSession)
    (hnew : s.session_id = none)
    (h : writeSeq s fresh (kw :: kws) = .ok (jobs, s2)) :
    ∃ j0 rest, jobs = j0 :: rest ∧
      j0.sent_session_id = none ∧
      j0.session_id = j0.job_id ∧
      s2.session_id = some j0.job_id ∧
      (∀ j ∈ jobs, j.session_id = j0.job_id) ∧
      (∀ j ∈ rest, j.sent_session_id = some j0.job_id) := by
  rw [writeSeq] at h
  cases hw : s.write fresh kw with
  | error e => rw [hw] at h; exact absurd h (by simp)
  | ok p =>
      obtain ⟨j, s1⟩ := p
      rw [hw] at h
      dsimp only at h
      cases hrest : writeSeq s1 (fresh + 1) kws with
      | error e => rw [hrest] at h; exact absurd h (by simp)
      | ok q =>
          obtain ⟨js, send⟩ := q
          rw [hrest] at h
          dsimp only at h
          injection h with h
          injection h with hj hs
          subst hj; subst hs
          obtain ⟨-, hsent, -, hjsid, hs1sid, -, -, -, -⟩ := write_fields s fresh kw j s1 hw
          rw [hnew] at hsent hjsid hs1sid
          dsimp only at hjsid hs1sid
          obtain ⟨hend, hall⟩ :=
            writeSeq_keeps_session_id kws s1 (fresh + 1) j.job_id js send hs1sid hrest
          refine ⟨j, js, rfl, hsent, hjsid, hend, ?_, ?_⟩
          · intro x hx
            rcases List.mem_cons.mp hx with hx | hx
            · subst hx; exact hjsid
            · exact (hall x hx).1
          · intro x hx
            exact (hall x hx).2

/-- Witness for C1: a concrete two-write sequence. -/
theorem c1_witness :
    ∃ j0 rest, [demoJob0, demoJob1] = j0 :: rest ∧
      j0.sent_session_id = none ∧
      j0.session_id = j0.job_id ∧
      demoAfterTwo.session_id = some j0.job_id ∧
      (∀ j ∈ [demoJob0, demoJob1], j.session_id = j0.job_id) ∧
      (∀ j ∈ rest, j.sent_session_id = some j0.job_id) :=
  c1_session_id_shared demoSession 0 [("b", "2")] [[]] [demoJob0, demoJob1]
    demoAfterTwo rfl rfl

/-- C3: on a session on which `close()` (or the scope-exit `__exit__`) has run,
`write` and `read` raise the closed-session error before doing anything —
whatever job state the session holds — and closing leaves the stored job (and
hence any already-retrieved result) in place; no submission occurs after
closure. -/
theorem c3_closed_session_rejects (s : RuntimeSession) (fresh : Nat)
    (kw : List (String × String)) :
    (s.close).write fresh kw = .error .sessionClosed ∧
    (s.close).read = .error .sessionClosed ∧
    (s.exit_scope).write fresh kw = .error .sessionClosed ∧
    (s.exit_scope).read = .error .sessionClosed ∧
    (s.close).job = s.job := by
  refine ⟨?_, ?_, ?_, ?_, rfl⟩ <;>
    simp [RuntimeSession.close, RuntimeSession.exit_scope, RuntimeSession.write,
      RuntimeSession.read]

/-- C10: `write` never mutates the session's stored initial inputs: the
submitted inputs are a copy of the initial inputs overlaid with the call's
keyword overrides, and the session's initial-inputs mapping after the call is
what it was before. -/
theorem c10_write_initial_inputs_frame (s : RuntimeSession) (fresh : Nat)
    (kw : List (String × String)) (j : SubmittedJob) (s1 : RuntimeSession)
    (k : String)
    (h : s.write fresh kw = .ok (j, s1))
    (hnd : (kw.map Prod.fst).Nodup) :
    s1.initial_inputs = s.initial_inputs ∧
    lookupKey j.inputs k = pyOverlay (lookupKey kw k) (lookupKey s.initial_inputs k) := by
  obtain ⟨-, -, -, -, -, -, hinit, -, hinputs⟩ := write_fields s fresh kw j s1 h
  refine ⟨hinit, ?_⟩
  rw [hinputs]
  exact lookupKey_updateMap _ _ _ hnd

/-- Witness for C10: the first demo write, looked up at the overridden key. -/
theorem c10_witness :
    demoAfterOne.initial_inputs = demoSession.initial_inputs ∧
    lookupKey demoJob0.inputs "b" =
      pyOverlay (lookupKey [("b", "2")] "b") (lookupKey demoSession.initial_inputs "b") :=
  c10_write_initial_inputs_frame demoSession 0 [("b", "2")] demoJob0 demoAfterOne "b"
    rfl (by decide)

/-- Sequencing of two assignments: Python evaluates the second statement only
when the first did not raise. -/
def thenAssign (r : Except PyError EstimatorOptions) (f : EstimatorField) :
    Except PyError EstimatorOptions :=
  match r with
  | .error e => .error e
  | .ok o1 => o1.assign f

/-- A simulator-flagged options object with nothing set: `_is_simulator =
True`, every level and the coupling map `Unset`. -/
def simFlaggedOptions : EstimatorOptions :=
  { _is_simulator := true
    optimization_level := .unset
    resilience_level := .unset
    simulator := { coupling_map := .unset } }

/-- An options object with `resilience_level = 3` on a non-simulator target
and no coupling map (a state pydantic accepts). -/
def resilience3Options : EstimatorOptions :=
  { _is_simulator := false
    optimization_level := .unset
    resilience_level := .val 3
    simulator := { coupling_map := .unset } }

/-- C2: constructing an `EstimatorOptions` with `resilience_level == 3`, the
simulator flag set and the coupling map `Unset` — or assigning
`resilience_level = 3` to such an object — raises `InvalidOption`; if a
coupling map is assigned first, the same `resilience_level = 3` assignment
succeeds. -/
theorem c2_resilience3_needs_coupling_map (o : EstimatorOptions)
    (opt : ConfigValue Int) (cmv : CouplingMap)
    (hsim : o._is_simulator = true)
    (hcm : o.simulator.coupling_map = ConfigValue.unset) :
    o.assign (.resilienceLevel (.val 3)) = .error .invalidOption ∧
    EstimatorOptions.construct opt (.val 3) true .unset = .error .invalidOption ∧
    thenAssign (o.assign (.couplingMap (.val cmv))) (.resilienceLevel (.val 3)) =
      .ok { o with simulator := { coupling_map := .val cmv },
                   resilience_level := .val 3 } := by
  refine ⟨?_, ?_, ?_⟩
  · simp [EstimatorOptions.assign, _validate_resilience_level, skip_unset_validation,
      resilience_level_body, _MAX_RESILIENCE_LEVEL, _validate_options, hsim, hcm,
      ConfigValue.isUnset]
  · cases opt with
    | unset =>
        simp [EstimatorOptions.construct, _validate_optimization_level,
          _validate_resilience_level, skip_unset_validation, resilience_level_body,
          _MAX_RESILIENCE_LEVEL, _validate_options, ConfigValue.isUnset]
    | val v =>
        by_cases hv : 0 ≤ v ∧ v ≤ _MAX_OPTIMIZATION_LEVEL
        · simp [EstimatorOptions.construct, _validate_optimization_level,
            _validate_resilience_level, skip_unset_validation, optimization_level_body,
            resilience_level_body, _MAX_RESILIENCE_LEVEL, _validate_options,
            ConfigValue.isUnset, hv]
        · simp [EstimatorOptions.construct, _validate_optimization_level,
            skip_unset_validation, optimization_level_body, hv]
  · simp [thenAssign, EstimatorOptions.assign, _validate_options,
      _validate_resilience_level, skip_unset_validation, resilience_level_body,
      _MAX_RESILIENCE_LEVEL, ConfigValue.isUnset, hsim, hcm]

/-- Witness for C2: the concrete simulator-flagged options object. -/
theorem c2_witness :
    simFlaggedOptions.assign (.resilienceLevel (.val 3)) = .error .invalidOption ∧
    EstimatorOptions.construct .unset (.val 3) true .unset = .error .invalidOption ∧
    thenAssign (simFlaggedOptions.assign (.couplingMap (.val [(0, 1)])))
        (.resilienceLevel (.val 3)) =
      .ok { simFlaggedOptions with
              simulator := { coupling_map := .val [(0, 1)] },
              resilience_level := .val 3 } :=
  c2_resilience3_needs_coupling_map simFlaggedOptions .unset [(0, 1)] rfl rfl

/-- C6: changing the backend-type flag alone — assigning `_is_simulator :=
true` on an options object that already has `resilience_level == 3` and no
coupling map — re-runs the cross-field validator and raises `InvalidOption`. -/
theorem c6_flag_change_revalidates (o : EstimatorOptions)
    (h3 : o.resilience_level = ConfigValue.val 3)
    (hcm : o.simulator.coupling_map = ConfigValue.unset) :
    o.assign (.isSimulator true) = .error .invalidOption := by
  simp [EstimatorOptions.assign, _validate_options, h3, hcm, ConfigValue.isUnset]

/-- Witness for C6: flipping the flag on the concrete `resilience_level = 3`,
no-coupling-map object raises. -/
theorem c6_witness :
    resilience3Options.assign (.isSimulator true) = .error .invalidOption :=
  c6_flag_change_revalidates resilience3Options rfl rfl

/-- C7 counterexample: 3 lies in `[0, 3]`, yet assigning `resilience_level =
3` on the simulator-flagged object with no coupling map raises `InvalidOption`
instead of succeeding — the claim's "if the assigned value is an integer in
[0, 3] the assignment succeeds" is false as stated. -/
theorem c7_counterexample :
    ((0 : Int) ≤ 3 ∧ (3 : Int) ≤ 3) ∧
    simFlaggedOptions.assign (.resilienceLevel (.val 3)) = .error .invalidOption := by
  exact ⟨by decide, rfl⟩

/-- C7 amended: on an options object the cross-field validator currently
accepts, assigning an integer in `[0, 3]` to `optimization_level` succeeds
and stores it, and likewise for `resilience_level` unless the assignment
itself triggers the resilience-3/simulator/no-coupling-map rule (then
`InvalidOption`); an integer outside `[0, 3]` raises `InvalidOption` for
either field; assigning the `Unset` sentinel skips the range validator and
raises no error. -/
theorem c7_level_range_validation (o : EstimatorOptions) (v : Int)
    (hok : _validate_options o = .ok o) :
    (0 ≤ v → v ≤ 3 →
      o.assign (.optimizationLevel (.val v)) =
        .ok { o with optimization_level := .val v }) ∧
    (0 ≤ v → v ≤ 3 →
      ¬(v = 3 ∧ o._is_simulator = true ∧ o.simulator.coupling_map = ConfigValue.unset) →
      o.assign (.resilienceLevel (.val v)) =
        .ok { o with resilience_level := .val v }) ∧
    (¬(0 ≤ v ∧ v ≤ 3) →
      o.assign (.optimizationLevel (.val v)) = .error .invalidOption ∧
      o.assign (.resilienceLevel (.val v)) = .error .invalidOption) ∧
    o.assign (.optimizationLevel .unset) = .ok { o with optimization_level := .unset } ∧
    o.assign (.resilienceLevel .unset) = .ok { o with resilience_level := .unset } := by
  have hcond : ¬(o.resilience_level = ConfigValue.val 3 ∧ o._is_simulator = true ∧
      o.simulator.coupling_map.isUnset = true) := by
    intro hc
    rw [_validate_options, if_pos hc] at hok
    exact absurd hok (by simp)
  refine ⟨?_, ?_, ?_, ?_, ?_⟩
  · intro h0 h3
    simp only [EstimatorOptions.assign, _validate_optimization_level,
      skip_unset_validation, optimization_level_body, _MAX_OPTIMIZATION_LEVEL]
    rw [if_pos ⟨h0, h3⟩]
    simp only [_validate_options]
    rw [if_neg (by exact hcond)]
  · intro h0 h3 hno
    simp only [EstimatorOptions.assign, _validate_resilience_level,
      skip_unset_validation, resilience_level_body, _MAX_RESILIENCE_LEVEL]
    rw [if_pos ⟨h0, h3⟩]
    simp only [_validate_options]
    rw [if_neg ?_]
    intro hc
    obtain ⟨hc3, hcs, hcu⟩ := hc
    have hv3 : v = 3 := by
      have := ConfigValue.val.inj hc3
      exact this
    refine hno ⟨hv3, hcs, ?_⟩
    cases hcmv : o.simulator.coupling_map with
    | unset => rfl
    | val x => rw [hcmv] at hcu; exact absurd hcu (by simp [ConfigValue.isUnset])
  · intro hout
    constructor
    · simp only [EstimatorOptions.assign, _validate_optimization_level,
        skip_unset_validation, optimization_level_body, _MAX_OPTIMIZATION_LEVEL]
      rw [if_neg hout]
    · simp only [EstimatorOptions.assign, _validate_resilience_level,
        skip_unset_validation, resilience_level_body, _MAX_RESILIENCE_LEVEL]
      rw [if_neg hout]
  · simp only [EstimatorOptions.assign, _validate_optimization_level,
      skip_unset_validation, _validate_options]
    rw [if_neg (by exact hcond)]
  · simp only [EstimatorOptions.assign, _validate_resilience_level,
      skip_unset_validation, _validate_options]
    rw [if_neg ?_]
    intro hc
    exact absurd hc.1 (by simp)

/-- Witness for C7 (amended): the valid simulator-flagged object and the
in-range value 2. -/
theorem c7_witness :
    (0 ≤ (2 : Int) → (2 : Int) ≤ 3 →
      simFlaggedOptions.assign (.optimizationLevel (.val 2)) =
        .ok { simFlaggedOptions with optimization_level := .val 2 }) ∧
    (0 ≤ (2 : Int) → (2 : Int) ≤ 3 →
      ¬((2 : Int) = 3 ∧ simFlaggedOptions._is_simulator = true ∧
        simFlaggedOptions.simulator.coupling_map = ConfigValue.unset) →
      simFlaggedOptions.assign (.resilienceLevel (.val 2)) =
        .ok { simFlaggedOptions with resilience_level := .val 2 }) ∧
    (¬(0 ≤ (2 : Int) ∧ (2 : Int) ≤ 3) →
      simFlaggedOptions.assign (.optimizationLevel (.val 2)) = .error .invalidOption ∧
      simFlaggedOptions.assign (.resilienceLevel (.val 2)) = .error .invalidOption) ∧
    simFlaggedOptions.assign (.optimizationLevel .unset) =
      .ok { simFlaggedOptions with optimization_level := .unset } ∧
    simFlaggedOptions.assign (.resilienceLevel .unset) =
      .ok { simFlaggedOptions with resilience_level := .unset } :=
  c7_level_range_validation simFlaggedOptions 2 rfl

/-! ### C4: the default-profile job's progression -/

/-- C4 counterexample: in the statement-level trace of a default-profile job
there is a point (between the loop's final `self._status = "COMPLETED"`
assignment and the separate `self._result = json.dumps("foo")` assignment)
where the status is already `COMPLETED` but the result is still absent — so
"once COMPLETED, the result payload is present" is false as stated. -/
theorem c4_counterexample :
    defaultTrace[3]? = some { status := FakeStatus.completed, result := none } ∧
    ¬ (∀ o ∈ defaultTrace, o.status = FakeStatus.completed → o.result.isSome = true) := by
  decide

/-- C4 amended: a default-profile fake job starts at `QUEUED` with no result,
moves through statuses only in the order `QUEUED`, `RUNNING`, `COMPLETED`
(never regressing and visiting no other status), its result is absent at every
point at which the status is not yet `COMPLETED`, and at the end of the
progression the status is `COMPLETED` with the `"foo"` payload present — with
the one intermediate instant where the status is already `COMPLETED` but the
result assignment has not yet executed. -/
theorem c4_default_profile_progression :
    defaultTrace.head? = some initialObs ∧
    List.Pairwise (fun a b => statusRank a.status ≤ statusRank b.status) defaultTrace ∧
    (∀ o ∈ defaultTrace,
      o.status = FakeStatus.queued ∨ o.status = FakeStatus.running ∨
        o.status = FakeStatus.completed) ∧
    (∀ o ∈ defaultTrace, ¬ o.status = FakeStatus.completed → o.result = none) ∧
    defaultTrace.getLast? =
      some { status := FakeStatus.completed, result := some fooResult } := by
  decide

/-! ### C5: cancellation on the fake client -/

/-- A default-profile job (class `BaseFakeRuntimeJob`), freshly submitted. -/
def c5_default_job : FakeJob :=
  mkFakeJob "job-0" "prog" "hub" "group" "project" "backend" "params" ""
    JobClass.base none

/-- A registry holding only the default-profile job. -/
def c5_client : FakeClient := { jobs := [("job-0", c5_default_job)] }

/-- A cancelable-profile job currently `RUNNING`. -/
def c5_running_cancelable : FakeJob :=
  { mkFakeJob "job-c" "prog" "hub" "group" "project" "backend" "params" ""
      JobClass.cancelable none with
    status := FakeStatus.running }

/-- A cancelable-profile job created with a preset `COMPLETED` final status
(so `__init__` never created `_future`). -/
def c5_preset_cancelable : FakeJob :=
  mkFakeJob "job-p" "prog" "hub" "group" "project" "backend" "params" ""
    JobClass.cancelable (some FakeStatus.completed)

/-- C5 counterexample: the default-profile job is pending (`QUEUED`), yet
`job_cancel` raises `AttributeError` — `BaseFakeRuntimeJob` defines no
`cancel` method — rather than making the next status read report
`CANCELLED`. -/
theorem c5_counterexample :
    c5_default_job.status = FakeStatus.queued ∧
    c5_client.job_cancel "job-0" = .error .attributeError := ⟨rfl, rfl⟩

/-- C5 amended: only the cancelable profile implements `cancel`.  On a
cancelable job that has a progression future, `cancel` sets the cancelled
flag, after which every status read reports `CANCELLED` regardless of the raw
status at the time of the call (a terminal status does not stay); on a job of
any other profile, and on a cancelable job created with a preset final status
(no `_future`), `cancel` raises `AttributeError`. -/
theorem c5_cancel_semantics (j j2 j3 : FakeJob)
    (hc : j.cls = JobClass.cancelable) (hf : j.has_future = true)
    (h2 : ¬ j2.cls = JobClass.cancelable)
    (h3c : j3.cls = JobClass.cancelable) (h3f : j3.has_future = false) :
    j.cancel = .ok { j with cancelled := true } ∧
    ({ j with cancelled := true } : FakeJob).reportedStatus = FakeStatus.cancelled ∧
    j2.cancel = .error .attributeError ∧
    j3.cancel = .error .attributeError := by
  refine ⟨?_, ?_, ?_, ?_⟩
  · simp [FakeJob.cancel, hc, hf]
  · simp [FakeJob.reportedStatus, hc]
  · cases hcls : j2.cls with
    | cancelable => exact absurd hcls h2
    | base => simp [FakeJob.cancel, hcls]
    | failedJob => simp [FakeJob.cancel, hcls]
    | failedRanTooLong => simp [FakeJob.cancel, hcls]
    | customResult => simp [FakeJob.cancel, hcls]
    | timed => simp [FakeJob.cancel, hcls]
  · simp [FakeJob.cancel, h3c, h3f]

/-- Witness for C5 (amended): the three concrete jobs. -/
theorem c5_witness :
    c5_running_cancelable.cancel =
      .ok { c5_running_cancelable with cancelled := true } ∧
    ({ c5_running_cancelable with cancelled := true } : FakeJob).reportedStatus =
      FakeStatus.cancelled ∧
    c5_default_job.cancel = .error .attributeError ∧
    c5_preset_cancelable.cancel = .error .attributeError :=
  c5_cancel_semantics c5_running_cancelable c5_default_job c5_preset_cancelable
    rfl rfl (by decide) rfl rfl

/-! ### C8: the pending filter of `jobs_get` -/

theorem statusMem_pending (s : FakeStatus) :
    statusMem s pending_statuses =
      decide (s = FakeStatus.queued ∨ s = FakeStatus.running) := by
  cases s <;> rfl

theorem statusMem_returned (s : FakeStatus) :
    statusMem s returned_statuses =
      decide (s = FakeStatus.completed ∨ s = FakeStatus.failed ∨
        s = FakeStatus.cancelled) := by
  cases s <;> rfl

theorem jobs_get_pending_true (c : FakeClient) :
    (c.jobs_get none none (some true) none none none none).jobs =
      ((c.jobs.map Prod.snd).filter
        (fun j => statusMem j.status pending_statuses)).map FakeJob.to_dict := by
  have hlen : ((c.jobs.map Prod.snd).filter
      (fun j => statusMem j.status pending_statuses)).length ≤ c.jobs.length := by
    calc ((c.jobs.map Prod.snd).filter
        (fun j => statusMem j.status pending_statuses)).length
        ≤ (c.jobs.map Prod.snd).length := List.length_filter_le _ _
      _ = c.jobs.length := by rw [List.length_map]
  simp only [FakeClient.jobs_get, pyOrNat, truthyStr, List.drop_zero,
    Bool.false_eq_true, false_and, and_false, if_false, if_true]
  rw [List.take_of_length_le hlen]

theorem jobs_get_pending_false (c : FakeClient) :
    (c.jobs_get none none (some false) none none none none).jobs =
      ((c.jobs.map Prod.snd).filter
        (fun j => statusMem j.status returned_statuses)).map FakeJob.to_dict := by
  have hlen : ((c.jobs.map Prod.snd).filter
      (fun j => statusMem j.status returned_statuses)).length ≤ c.jobs.length := by
    calc ((c.jobs.map Prod.snd).filter
        (fun j => statusMem j.status returned_statuses)).length
        ≤ (c.jobs.map Prod.snd).length := List.length_filter_le _ _
      _ = c.jobs.length := by rw [List.length_map]
  simp only [FakeClient.jobs_get, pyOrNat, truthyStr, List.drop_zero,
    Bool.false_eq_true, false_and, and_false, if_false, if_true]
  rw [List.take_of_length_le hlen]

/-- A job whose raw status is `CANCELLED - RAN TOO LONG`. -/
def ranTooLongJob : FakeJob :=
  mkFakeJob "job-r" "prog" "hub" "group" "project" "backend" "params" ""
    JobClass.failedRanTooLong (some FakeStatus.cancelledRanTooLong)

/-- A registry holding only the ran-too-long job. -/
def c8_client : FakeClient := { jobs := [("job-r", ranTooLongJob)] }

/-- C8 counterexample: a stored job with the terminal status
`CANCELLED - RAN TOO LONG` is returned by neither the pending query nor the
non-pending query — the source's `returned_statuses` list is only
`['COMPLETED', 'FAILED', 'CANCELLED']` — contradicting the claim that the
pending-false query returns exactly the jobs with any of the four terminal
statuses. -/
theorem c8_counterexample :
    ranTooLongJob.status = FakeStatus.cancelledRanTooLong ∧
    (c8_client.jobs_get none none (some false) none none none none).jobs = [] ∧
    (c8_client.jobs_get none none (some true) none none none none).jobs = [] := by
  refine ⟨rfl, ?_, ?_⟩ <;> rfl

/-- C8 amended: with the pending filter true, `jobs_get` returns exactly the
stored jobs whose raw status is `QUEUED` or `RUNNING`; with the pending
filter false, exactly those whose raw status is `COMPLETED`, `FAILED` or
`CANCELLED` — jobs with status `CANCELLED - RAN TOO LONG` are returned by
neither. -/
theorem c8_pending_terminal_filters (c : FakeClient) :
    (c.jobs_get none none (some true) none none none none).jobs =
      ((c.jobs.map Prod.snd).filter
        (fun j => decide (j.status = FakeStatus.queued ∨
          j.status = FakeStatus.running))).map FakeJob.to_dict ∧
    (c.jobs_get none none (some false) none none none none).jobs =
      ((c.jobs.map Prod.snd).filter
        (fun j => decide (j.status = FakeStatus.completed ∨
          j.status = FakeStatus.failed ∨
          j.status = FakeStatus.cancelled))).map FakeJob.to_dict := by
  constructor
  · rw [jobs_get_pending_true]
    exact congrArg (List.map FakeJob.to_dict)
      (List.filter_congr (fun j _ => statusMem_pending j.status))
  · rw [jobs_get_pending_false]
    exact congrArg (List.map FakeJob.to_dict)
      (List.filter_congr (fun j _ => statusMem_returned j.status))

/-! ### C9: `info()` -/

/-- The options dict that `IBMSampler.__call__` passes to the session it
constructs. -/
def samplerOptionsDict : SessionOptions :=
  SessionOptions.dict [("backend_name", "ibmq_qasm_simulator"), ("image", "expval:748ef50")]

/-- A session exactly as `IBMSampler.__call__` builds one. -/
def c9_dict_session : RuntimeSession :=
  RuntimeSession.mk_session "sampler-Yxk1ZM0Rlm" samplerOptionsDict [("circuits", "c1")]

/-- A session whose options object is a `RuntimeOptions` with a backend. -/
def c9_runtime_session : RuntimeSession :=
  RuntimeSession.mk_session "prog" (SessionOptions.runtime (some "ibmq_montreal")) []

/-- C9: `info()` evaluated at the failing inputs and on the working path.  On
a session built the way `IBMSampler`/`IBMEstimator` build them (options a
plain dict) — or with the default `options=None` — the attribute access
`self._options.backend_name` raises `AttributeError`, so `info()` is not a
total read.  When options is a `RuntimeOptions` object, `info()` returns the
backend/job snapshot and leaves the session state unchanged, and (being
unguarded) still works after `close()`. -/
theorem c9_info_attribute_error :
    c9_dict_session.info (fun _ => "COMPLETED") = .error .attributeError ∧
    (RuntimeSession.mk_session "prog" SessionOptions.pyNone []).info
      (fun _ => "COMPLETED") = .error .attributeError ∧
    c9_runtime_session.info (fun _ => "COMPLETED") =
      .ok ({ backend := "ibmq_montreal", job_id := none, job_status := none },
           c9_runtime_session) ∧
    (c9_runtime_session.close).info (fun _ => "COMPLETED") =
      .ok ({ backend := "ibmq_montreal", job_id := none, job_status := none },
           c9_runtime_session.close) := by
  refine ⟨rfl, rfl, rfl, rfl⟩

end QiskitRT
